import Mathlib

/-!
Verification of the progress-header coordination core of the `llm_agents`
repository, shallowly embedded in Lean 4.

The embedding covers:
* `build_header_generator` and `get_header_done` from
  `src/llm_agents/interfaces/bots/_base.py` (the header sequencer),
* `AgentBase.execute_with_progress` from `src/llm_agents/dags/_base.py`
  (the progress coordinator), modelled as a deterministic trace-producing
  function over the single-threaded cooperative schedule of the source,
* `SlackBot.send_message` from `src/llm_agents/interfaces/bots/slack.py`.

Machine floats of the source are modelled as exact rationals; the Python
`%.1f` formatting is modelled with round-half-to-even, matching CPython's
correctly-rounded fixed-point formatting.
-/

/-! ## Header sequencer (`build_header_generator`) -/

/-- Constant `PROGRESS_TEXT_DEFAULT` from `bots/_base.py`. -/
def PROGRESS_TEXT_DEFAULT : String := "En réflexion"

/-- Constant `PROGRESS_EMOJIS` from `bots/_base.py` (a pair of emojis). -/
def PROGRESS_EMOJIS : List String := ["🤔", "💭"]

/-- Constant `PROGRESS_NB_DOTS` from `bots/_base.py`. -/
def PROGRESS_NB_DOTS : Nat := 3

/-- Failure modes of a pull on the header generator.  The Python generator
body indexes `emojis[emoji_index]`, which raises `IndexError` when the tuple
is too short; `invalidConfiguration` is the distinct classification the
specification's error taxonomy asks for (no code in the repository raises
it). -/
inductive SeqFailure where
  | indexOutOfRange
  | invalidConfiguration
  deriving Repr, DecidableEq

/-- Mutable local state of the `build_header_generator` generator body:
`emoji_index` and `dots`. -/
structure HeaderGenState where
  emoji_index : Nat
  dots : Nat
  deriving Repr, DecidableEq

/-- Initial generator state: `emoji_index = 0`, `dots = 1`
(`bots/_base.py` lines 115-116). -/
def headerInit : HeaderGenState := ⟨0, 1⟩

/-- `progress_text` computed once before the loop (`bots/_base.py` lines
118-120): the task tag, with `" (num/total)"` appended when both
`task_num` and `task_total` are not `None`. -/
def progress_text (task_tag : String) (task_num task_total : Option Int) : String :=
  match task_num, task_total with
  | some n, some t => task_tag ++ " (" ++ toString n ++ "/" ++ toString t ++ ")"
  | _, _ => task_tag

/-- A string of `k` dots, Python `'.' * k`. -/
def dotsStr (k : Nat) : String := String.mk (List.replicate k '.')

/-- One yield of the generator body (`bots/_base.py` lines 122-126):
`emojis[emoji_index]` (an `IndexError` when out of range), a space, the
progress text, optionally a space and `dots` dots when `nb_dots` is not
`None`, all wrapped in backticks. -/
def headerYield (emojis : List String) (nb_dots : Option Nat)
    (ptext : String) (s : HeaderGenState) : Except SeqFailure String :=
  match emojis.get? s.emoji_index with
  | none => Except.error SeqFailure.indexOutOfRange
  | some e =>
    let m := e ++ " " ++ ptext
    let m := match nb_dots with
      | some _ => m ++ " " ++ dotsStr s.dots
      | none => m
    Except.ok ("`" ++ m ++ "`")

/-- State advance after a yield (`bots/_base.py` lines 128-130):
`emoji_index = (emoji_index + 1) % len(emojis)` and, when `nb_dots` is not
`None`, `dots = dots + 1 if dots < nb_dots else 1`. -/
def headerAdvance (emojis : List String) (nb_dots : Option Nat)
    (s : HeaderGenState) : HeaderGenState :=
  { emoji_index := (s.emoji_index + 1) % emojis.length
    dots := match nb_dots with
      | some nd => if s.dots < nd then s.dots + 1 else 1
      | none => s.dots }

/-- Generator state before the `n`-th pull (0-based). -/
def headerStateAt (emojis : List String) (nb_dots : Option Nat) : Nat → HeaderGenState
  | 0 => headerInit
  | n + 1 => headerAdvance emojis nb_dots (headerStateAt emojis nb_dots n)

/-- The string produced by the `n`-th pull (0-based) of a fresh generator. -/
def headerAt (emojis : List String) (nb_dots : Option Nat)
    (ptext : String) (n : Nat) : Except SeqFailure String :=
  headerYield emojis nb_dots ptext (headerStateAt emojis nb_dots n)

/-! ## Terminal header (`get_header_done`) -/

/-- Round-half-to-even of a rational to an integer, as CPython's float
formatting rounds. -/
def roundHalfEven (q : ℚ) : ℤ :=
  let f : ℤ := ⌊q⌋
  let frac : ℚ := q - (f : ℚ)
  if frac < 1/2 then f
  else if 1/2 < frac then f + 1
  else if f % 2 = 0 then f else f + 1

/-- Python `f"{q:.1f}"` for a non-negative `q`: one decimal place,
correctly rounded (half-to-even). -/
def formatFixed1 (q : ℚ) : String :=
  let t : ℤ := roundHalfEven (q * 10)
  toString (t / 10) ++ "." ++ toString (t % 10)

/-- `get_header_done` (`bots/_base.py` lines 133-138): the fixed label
`"Terminé !"`, suffixed with the elapsed time to one decimal place when
`time_elapsed > 0`, wrapped in backticks. -/
def get_header_done (time_elapsed : ℚ) : String :=
  let header := "Terminé !"
  let header :=
    if 0 < time_elapsed then
      header ++ " (🕒 " ++ formatFixed1 time_elapsed ++ " secondes)"
    else header
  "`" ++ header ++ "`"

/-! ## Progress coordinator (`AgentBase.execute_with_progress`)

The source (`dags/_base.py` lines 126-165) runs single-threaded cooperative
asyncio: the only suspension points of the coordinator are the timed sleeps,
so all transport calls happen in strict program order.  We model one run as
a deterministic function producing the linear trace of externally observable
events.  The opaque unit of work is represented by the sequence of answers
its `task.done()` polls return (`polls`) and by its final outcome; the
monotonic clock is represented by the non-negative elapsed time the two
`time.monotonic()` reads yield (`elapsed`).  The loop is given fuel; `none`
models a run that has not completed within the fuel (the source loops until
the work completes). -/

/-- Externally observable events of one coordinator run, in program order. -/
inductive Ev where
  /-- `asyncio.create_task(self.execute(**kwargs))`: the unit of work starts. -/
  | startWork
  /-- `self.bot.flush()`. -/
  | flushEv
  /-- `self.bot.send_message(channel_id, thread_id, message_id)` with the
  currently staged header; `message_id = none` creates a new message,
  otherwise it edits that message. -/
  | send (header : String) (message_id : Option String)
  /-- A `task.done()` poll and the answer it returned. -/
  | check (done : Bool)
  /-- `await asyncio.sleep(header_switch_speed)`. -/
  | sleepEv
  deriving Repr, DecidableEq

/-- The header produced by the `n`-th pull (0-based) of the generator built
by `execute_with_progress`: `build_header_generator(self.task_progress_message,
self.task_num, self.task_total)` with the default emojis and dot count.
The default emoji pair is non-empty, so the pull never fails; the `.getD`
default is unreachable. -/
def headerAtD (ptext : String) (n : Nat) : String :=
  match headerAt PROGRESS_EMOJIS (some PROGRESS_NB_DOTS) ptext n with
  | Except.ok s => s
  | Except.error _ => ""

/-- The polling loop of `execute_with_progress` (`dags/_base.py` lines
149-154).  `i` is the index of the next `task.done()` poll, `n` the index of
the next generator pull, `fuel` bounds the number of iterations.  Returns
the loop's event trace and the final poll and pull indices. -/
def pollLoop (ptext : String) (botMsgId : String) (polls : Nat → Bool) :
    Nat → Nat → Nat → Option (List Ev × Nat × Nat)
  | _, _, 0 => none
  | i, n, fuel + 1 =>
    if polls i then
      -- `while not task.done()` observes completion: exit before any edit.
      some ([Ev.check true], i + 1, n)
    else
      -- loop body: advance the header, edit the message, sleep, re-check.
      let body := [Ev.check false, Ev.send (headerAtD ptext n) (some botMsgId),
                   Ev.sleepEv]
      if polls (i + 1) then
        -- `if task.done(): break` after the sleep: no further edit.
        some (body ++ [Ev.check true], i + 2, n + 1)
      else
        match pollLoop ptext botMsgId polls (i + 2) (n + 1) fuel with
        | none => none
        | some (rest, i2, n2) => some (body ++ Ev.check false :: rest, i2, n2)

/-- Result of one completed coordinator run. -/
structure RunOutput where
  /-- Trace of observable events, in program order. -/
  events : List Ev
  /-- `self.agent_io.processing_time` after the run (the source mutates it
  before awaiting the task, so it is updated even when the work failed). -/
  processing_time : ℚ
  /-- What the call does at `task_output = await task`: returns the work's
  result, or re-raises the exception the unit of work stored. -/
  result : Except String Unit
  deriving Repr

/-- `AgentBase.execute_with_progress` (`dags/_base.py` lines 126-165).
`p0` is `self.agent_io.processing_time` at entry, `msg_id0` is
`self.bot.current_bot_message_id` at entry (the `message_id` of the first
send), `ptext` the progress text of the task, `botMsgId` the message id the
transport returns from the first send, `outcome` the unit of work's result,
`elapsed` the difference of the two `time.monotonic()` reads around the
loop. -/
def execute_with_progress (p0 : ℚ) (msg_id0 : Option String) (ptext : String)
    (botMsgId : String) (polls : Nat → Bool) (elapsed : ℚ)
    (outcome : Except String Unit) (fuel : Nat) : Option RunOutput :=
  -- task = asyncio.create_task(...); bot.flush();
  -- bot.current_header = next(header_generator); first send.
  let pre := [Ev.startWork, Ev.flushEv, Ev.send (headerAtD ptext 0) msg_id0]
  match pollLoop ptext botMsgId polls 0 1 fuel with
  | none => none
  | some (loopEvs, _, _) =>
    -- time_elapsed = end_time - start_time;
    -- self.agent_io.processing_time += time_elapsed;
    -- terminal edit with get_header_done(self.agent_io.processing_time);
    -- task_output = await task.
    let pt := p0 + elapsed
    some { events := pre ++ loopEvs ++ [Ev.send (get_header_done pt) (some botMsgId)]
           processing_time := pt
           result := outcome }

/-- The send events of a trace, in order. -/
def sendEvents (l : List Ev) : List Ev :=
  l.filter fun e => match e with
    | Ev.send _ _ => true
    | _ => false

/-- The part of a trace strictly after the first poll that observed
completion. -/
def afterFirstTrueCheck : List Ev → List Ev
  | [] => []
  | e :: rest => if e = Ev.check true then rest else afterFirstTrueCheck rest

/-! ## Slack transport (`SlackBot.send_message`) -/

/-- Constant `SlackBot.URL_POST_MESSAGE`. -/
def URL_POST_MESSAGE : String := "https://slack.com/api/chat.postMessage"

/-- Constant `SlackBot.URL_UPDATE_MESSAGE`. -/
def URL_UPDATE_MESSAGE : String := "https://slack.com/api/chat.update"

/-- The value found under key `"ts"` in the response body: a JSON string,
or a value of some other JSON type (`isinstance(res_json["ts"], str)` is
false). -/
inductive TsVal where
  | str (s : String)
  | nonStr
  deriving Repr, DecidableEq

/-- The part of the HTTP response `SlackBot.send_message` inspects:
`response.status_code`, the truthiness of `response.json().get("ok")`, and
the `"ts"` entry of the body (absent or of either kind). -/
structure SlackResponse where
  status_code : Nat
  ok : Bool
  ts : Option TsVal
  deriving Repr, DecidableEq

/-- The mutable fields of a `SlackBot` that `send_message` reads or writes. -/
structure SlackBotState where
  current_header : String
  current_body : String
  current_bot_message_id : Option String
  current_bot_thread_id : Option String
  current_bot_channel_id : Option String
  deriving Repr, DecidableEq

/-- The exceptions `SlackBot.send_message` raises:
`SlackMessageSendError` on a non-success response, `SlackApiError` when the
success response lacks a string `"ts"`. -/
inductive SlackSendErr where
  | messageSendError
  | apiError
  deriving Repr, DecidableEq

/-- The endpoint chosen at `slack.py` line 300: post when `message_id` is
`None`, update otherwise. -/
def send_message_url (message_id : Option String) : String :=
  match message_id with
  | none => URL_POST_MESSAGE
  | some _ => URL_UPDATE_MESSAGE

/-- `SlackBot.send_message` (`slack.py` lines 264-314), given the response
the HTTP POST returned.  The returned pair is the call's outcome (the new
message id, or the exception raised) together with the bot state after the
call; the source raises before any field assignment, so on every error path
the state is returned unchanged. -/
def send_message (st : SlackBotState) (channel_id : String)
    (thread_id message_id : Option String) (response : SlackResponse) :
    Except SlackSendErr String × SlackBotState :=
  let _url := send_message_url message_id
  if response.status_code = 200 ∧ response.ok = true then
    match response.ts with
    | some (TsVal.str ts) =>
      (Except.ok ts,
       { st with current_bot_message_id := some ts
                 current_bot_thread_id := thread_id
                 current_bot_channel_id := channel_id })
    | _ => (Except.error SlackSendErr.apiError, st)
  else (Except.error SlackSendErr.messageSendError, st)

/-! ## A generator object, for the lazy-creation claims -/

/-- The generator object `build_header_generator(...)` returns: Python
generator creation runs none of the body (lines 115-130 execute only on the
first pull), so creation merely captures the arguments. -/
structure HeaderGenerator where
  task_tag : String
  task_num : Option Int
  task_total : Option Int
  emojis : List String
  nb_dots : Option Nat
  state : HeaderGenState
  deriving Repr, DecidableEq

/-- `build_header_generator` (`bots/_base.py` lines 108-130): creating the
generator always succeeds and performs no validation; the body runs lazily. -/
def build_header_generator (task_tag : String) (task_num task_total : Option Int)
    (emojis : List String) (nb_dots : Option Nat) : HeaderGenerator :=
  ⟨task_tag, task_num, task_total, emojis, nb_dots, headerInit⟩

/-- One `next(...)` on the generator: yield the current header (or raise),
then advance both counters. -/
def nextHeader (g : HeaderGenerator) : Except SeqFailure (String × HeaderGenerator) :=
  match headerYield g.emojis g.nb_dots
      (progress_text g.task_tag g.task_num g.task_total) g.state with
  | Except.error e => Except.error e
  | Except.ok s =>
    Except.ok (s, { g with state := headerAdvance g.emojis g.nb_dots g.state })

/-! ## Helper lemmas on the sequencer -/

/-- With the default emoji pair and `nb_dots = 3`, the state before the
`n`-th pull has emoji index `n % 2` and dot count `n % 3 + 1`. -/
theorem headerStateAt_default (n : Nat) :
    headerStateAt PROGRESS_EMOJIS (some PROGRESS_NB_DOTS) n =
      ⟨n % 2, n % 3 + 1⟩ := by
  induction n with
  | zero => rfl
  | succ n ih =>
    show headerAdvance PROGRESS_EMOJIS (some PROGRESS_NB_DOTS)
        (headerStateAt PROGRESS_EMOJIS (some PROGRESS_NB_DOTS) n) = _
    rw [ih]
    simp only [headerAdvance, PROGRESS_EMOJIS, PROGRESS_NB_DOTS,
      List.length_cons, List.length_nil]
    simp only [HeaderGenState.mk.injEq]
    refine ⟨by omega, ?_⟩
    split <;> omega

/-- With the default emoji pair and dot count, the `n`-th pull renders the
emoji of index `n % 2`, the progress text and `n % 3 + 1` dots, and never
fails. -/
theorem headerAt_default_render (ptext : String) (n : Nat) :
    headerAt PROGRESS_EMOJIS (some PROGRESS_NB_DOTS) ptext n =
      Except.ok ("`" ++ (PROGRESS_EMOJIS.getD (n % 2) "" ++ " " ++ ptext ++ " " ++
        dotsStr (n % 3 + 1)) ++ "`") := by
  unfold headerAt
  rw [headerStateAt_default]
  unfold headerYield
  rcases Nat.mod_two_eq_zero_or_one n with h | h <;> rw [h] <;> rfl

/-- Claim C5: each pull of a header sequencer emits the current emoji, a
space and the task tag — with the literal counter `" (num/total)"` appended
exactly when both `taskNum` and `taskTotal` are present — optionally
suffixed with a space and `dotCount` dots when `nbDots` is present, all
wrapped in a backtick pair; with `taskTag="Thinking"`, `taskNum=2`,
`taskTotal=5` the text between emoji and dots is `"Thinking (2/5)"`. -/
theorem header_sequencer_format (emojis : List String) (nb_dots : Option Nat)
    (task_tag : String) (task_num task_total : Option Int) (s : HeaderGenState)
    (e : String) (he : emojis.get? s.emoji_index = some e) :
    (nb_dots.isSome = true →
      headerYield emojis nb_dots (progress_text task_tag task_num task_total) s =
        Except.ok ("`" ++ (e ++ " " ++ progress_text task_tag task_num task_total ++
          " " ++ dotsStr s.dots) ++ "`")) ∧
    (nb_dots = none →
      headerYield emojis nb_dots (progress_text task_tag task_num task_total) s =
        Except.ok ("`" ++ (e ++ " " ++ progress_text task_tag task_num task_total)
          ++ "`")) ∧
    (task_num.isSome = true → task_total.isSome = true →
      progress_text task_tag task_num task_total =
        task_tag ++ " (" ++ toString (task_num.getD 0) ++ "/" ++
          toString (task_total.getD 0) ++ ")") ∧
    ((task_num = none ∨ task_total = none) →
      progress_text task_tag task_num task_total = task_tag) ∧
    progress_text "Thinking" (some 2) (some 5) = "Thinking (2/5)" := by
  refine ⟨?_, ?_, ?_, ?_, rfl⟩
  · intro hd
    rcases nb_dots with _ | d
    · exact absurd hd (by simp)
    · unfold headerYield
      rw [he]
  · intro hd
    subst hd
    unfold headerYield
    rw [he]
  · intro h1 h2
    rcases task_num with _ | a
    · exact absurd h1 (by simp)
    rcases task_total with _ | b
    · exact absurd h2 (by simp)
    rfl
  · intro h
    rcases task_num with _ | a
    · rfl
    rcases task_total with _ | b
    · rfl
    rcases h with h | h <;> exact absurd h (by simp)

/-- Claim C5 witness: the sequencer instantiated at `taskTag="Thinking"`,
`taskNum=2`, `taskTotal=5` on a fresh state. -/
theorem header_sequencer_format_witness :
    ((some PROGRESS_NB_DOTS).isSome = true →
      headerYield PROGRESS_EMOJIS (some PROGRESS_NB_DOTS)
          (progress_text "Thinking" (some 2) (some 5)) headerInit =
        Except.ok ("`" ++ ("🤔" ++ " " ++ progress_text "Thinking" (some 2) (some 5) ++
          " " ++ dotsStr headerInit.dots) ++ "`")) ∧
    (some PROGRESS_NB_DOTS = none →
      headerYield PROGRESS_EMOJIS (some PROGRESS_NB_DOTS)
          (progress_text "Thinking" (some 2) (some 5)) headerInit =
        Except.ok ("`" ++ ("🤔" ++ " " ++ progress_text "Thinking" (some 2) (some 5))
          ++ "`")) ∧
    ((some (2 : Int)).isSome = true → (some (5 : Int)).isSome = true →
      progress_text "Thinking" (some 2) (some 5) =
        "Thinking" ++ " (" ++ toString ((some (2 : Int)).getD 0) ++ "/" ++
          toString ((some (5 : Int)).getD 0) ++ ")") ∧
    ((some (2 : Int) = none ∨ some (5 : Int) = none) →
      progress_text "Thinking" (some 2) (some 5) = "Thinking") ∧
    progress_text "Thinking" (some 2) (some 5) = "Thinking (2/5)" :=
  header_sequencer_format PROGRESS_EMOJIS (some PROGRESS_NB_DOTS) "Thinking"
    (some 2) (some 5) headerInit "🤔" rfl

/-- Claim C6: with the default two-emoji sequence and `nbDots = 3`, the
`n`-th pull (0-based) of a fresh sequencer succeeds (the sequence is
infinite), both counters advance by exactly one step per pull, and the pull
renders emoji index `n % 2` with dot count `n % 3 + 1`, the two cycles
independent of each other. -/
theorem header_sequencer_cycles (ptext : String) (n : Nat) :
    (headerStateAt PROGRESS_EMOJIS (some PROGRESS_NB_DOTS) n).emoji_index = n % 2 ∧
    (headerStateAt PROGRESS_EMOJIS (some PROGRESS_NB_DOTS) n).dots = n % 3 + 1 ∧
    headerStateAt PROGRESS_EMOJIS (some PROGRESS_NB_DOTS) (n + 1) =
      headerAdvance PROGRESS_EMOJIS (some PROGRESS_NB_DOTS)
        (headerStateAt PROGRESS_EMOJIS (some PROGRESS_NB_DOTS) n) ∧
    headerAt PROGRESS_EMOJIS (some PROGRESS_NB_DOTS) ptext n =
      Except.ok ("`" ++ (PROGRESS_EMOJIS.getD (n % 2) "" ++ " " ++ ptext ++ " " ++
        dotsStr (n % 3 + 1)) ++ "`") :=
  ⟨by rw [headerStateAt_default], by rw [headerStateAt_default], rfl,
   headerAt_default_render ptext n⟩

/-! ## Done-header lemmas and Claim C7 -/

/-- `12.34 * 10` rounds (half-to-even) to `123`. -/
theorem roundHalfEven_617_5 : roundHalfEven ((617 : ℚ)/50 * 10) = 123 := by
  have h : ((617 : ℚ)/50) * 10 = 617/5 := by norm_num
  rw [h]
  have hf : ⌊(617 : ℚ)/5⌋ = 123 := by norm_num
  unfold roundHalfEven
  rw [hf]
  norm_num

/-- `12.34` formatted to one decimal place is `"12.3"`. -/
theorem formatFixed1_12_34 : formatFixed1 (617/50) = "12.3" := by
  unfold formatFixed1
  rw [roundHalfEven_617_5]
  rfl

/-- Claim C7: `get_header_done` returns the fixed done label with an
elapsed-time suffix formatted to one decimal place exactly when
`time_elapsed > 0`, and the bare label otherwise (including at 0), with the
same backtick wrapping as progress headers; concretely,
`get_header_done 12.34` renders `"12.3"` and `get_header_done 0` carries no
time suffix. -/
theorem get_header_done_format (t : ℚ) :
    (0 < t → get_header_done t =
      "`" ++ ("Terminé !" ++ " (🕒 " ++ formatFixed1 t ++ " secondes)") ++ "`") ∧
    (t ≤ 0 → get_header_done t = "`" ++ "Terminé !" ++ "`") ∧
    get_header_done (617/50) = "`Terminé ! (🕒 12.3 secondes)`" ∧
    get_header_done 0 = "`Terminé !`" := by
  refine ⟨?_, ?_, ?_, by rfl⟩
  · intro ht
    simp only [get_header_done]
    rw [if_pos ht]
  · intro ht
    simp only [get_header_done]
    rw [if_neg (not_lt.mpr ht)]
  · have hpos : (0 : ℚ) < 617/50 := by norm_num
    simp only [get_header_done]
    rw [if_pos hpos, formatFixed1_12_34]
    rfl

/-- Claim C7 witness: the two rendering branches at `12.34` and `0`. -/
theorem get_header_done_format_witness :
    get_header_done (617/50) =
      "`" ++ ("Terminé !" ++ " (🕒 " ++ formatFixed1 (617/50) ++ " secondes)") ++ "`" ∧
    get_header_done 0 = "`" ++ "Terminé !" ++ "`" :=
  ⟨(get_header_done_format (617/50)).1 (by norm_num),
   (get_header_done_format 0).2.1 le_rfl⟩

/-! ## Claim C8 (corrected): empty emoji sequence -/

/-- Claim C8 counterexample: creating the sequencer with a zero-length
emoji sequence succeeds (the generator is lazy and runs no validation),
and the first pull fails with an out-of-bounds index access — not with an
`InvalidConfiguration` classification. -/
theorem empty_emojis_not_invalid_configuration :
    build_header_generator "Thinking" none none [] (some PROGRESS_NB_DOTS) =
      ⟨"Thinking", none, none, [], some PROGRESS_NB_DOTS, headerInit⟩ ∧
    nextHeader (build_header_generator "Thinking" none none [] (some PROGRESS_NB_DOTS)) =
      Except.error SeqFailure.indexOutOfRange ∧
    SeqFailure.indexOutOfRange ≠ SeqFailure.invalidConfiguration :=
  ⟨rfl, rfl, by decide⟩

/-- Claim C8 (amended): a zero-length emoji sequence is not rejected at
creation; creation succeeds, and every pull — in particular the first —
fails with an out-of-bounds index error (`IndexError`), never with an
`InvalidConfiguration` error. -/
theorem empty_emojis_first_pull_index_error (task_tag : String)
    (task_num task_total : Option Int) (nb_dots : Option Nat) (n : Nat)
    (ptext : String) :
    nextHeader (build_header_generator task_tag task_num task_total [] nb_dots) =
      Except.error SeqFailure.indexOutOfRange ∧
    headerAt [] nb_dots ptext n = Except.error SeqFailure.indexOutOfRange := by
  constructor
  · rfl
  · unfold headerAt headerYield
    rw [List.get?_nil]

/-! ## Claim C9 (corrected): only one of taskNum/taskTotal -/

/-- Claim C9 counterexample: supplying only `taskNum` is silently ignored —
the sequencer is created, the first pull succeeds, and the rendered header
is exactly the one rendered when neither counter is supplied (no
configuration error is raised). -/
theorem single_task_counter_silently_ignored :
    nextHeader (build_header_generator "Thinking" (some 2) none PROGRESS_EMOJIS
        (some PROGRESS_NB_DOTS)) =
      Except.ok ("`🤔 Thinking .`",
        ⟨"Thinking", some 2, none, PROGRESS_EMOJIS, some PROGRESS_NB_DOTS, ⟨1, 2⟩⟩) ∧
    progress_text "Thinking" (some 2) none = progress_text "Thinking" none none :=
  ⟨rfl, rfl⟩

/-- Claim C9 (amended): supplying exactly one of `taskNum` and `taskTotal`
is not a configuration error: the code silently ignores the lone value and
renders the header without the counter, exactly as when neither is
supplied. -/
theorem single_task_counter_renders_without_counter (task_tag : String)
    (a b : Int) (emojis : List String) (nb_dots : Option Nat) (s : HeaderGenState) :
    progress_text task_tag (some a) none = task_tag ∧
    progress_text task_tag none (some b) = task_tag ∧
    headerYield emojis nb_dots (progress_text task_tag (some a) none) s =
      headerYield emojis nb_dots (progress_text task_tag none none) s ∧
    headerYield emojis nb_dots (progress_text task_tag none (some b)) s =
      headerYield emojis nb_dots (progress_text task_tag none none) s :=
  ⟨rfl, rfl, rfl, rfl⟩

/-! ## Claim C10: atomicity of `SlackBot.send_message` -/

/-- Claim C10: `SlackBot.send_message` is atomic on transport failure — a
response that is not HTTP 200 with a truthy `ok` raises
`SlackMessageSendError`, a success response whose `"ts"` is absent or not a
string raises `SlackApiError`, and in both error cases every
`current_bot_*` field is left unchanged; on success the three fields are
set from the response's `"ts"` and the call's arguments, and the returned
message id equals the updated `current_bot_message_id`. -/
theorem send_message_atomic (st : SlackBotState) (channel_id : String)
    (thread_id message_id : Option String) (resp : SlackResponse) (ts : String) :
    (¬(resp.status_code = 200 ∧ resp.ok = true) →
      send_message st channel_id thread_id message_id resp =
        (Except.error SlackSendErr.messageSendError, st)) ∧
    ((resp.status_code = 200 ∧ resp.ok = true) →
      (resp.ts = none ∨ resp.ts = some TsVal.nonStr) →
      send_message st channel_id thread_id message_id resp =
        (Except.error SlackSendErr.apiError, st)) ∧
    ((resp.status_code = 200 ∧ resp.ok = true) →
      resp.ts = some (TsVal.str ts) →
      send_message st channel_id thread_id message_id resp =
        (Except.ok ts,
         { st with current_bot_message_id := some ts
                   current_bot_thread_id := thread_id
                   current_bot_channel_id := channel_id }) ∧
      (send_message st channel_id thread_id message_id resp).2.current_bot_message_id
        = some ts) := by
  refine ⟨?_, ?_, ?_⟩
  · intro h
    simp only [send_message]
    rw [if_neg h]
  · intro h hts
    simp only [send_message]
    rw [if_pos h]
    rcases hts with hts | hts <;> rw [hts]
  · intro h hts
    have hmain : send_message st channel_id thread_id message_id resp =
        (Except.ok ts,
         { st with current_bot_message_id := some ts
                   current_bot_thread_id := thread_id
                   current_bot_channel_id := channel_id }) := by
      simp only [send_message]
      rw [if_pos h, hts]
    exact ⟨hmain, by rw [hmain]⟩

/-- Claim C10 witness: a failing response, a success response without a
string `"ts"`, and a successful response, at an explicit bot state. -/
theorem send_message_atomic_witness :
    send_message ⟨"h", "b", some "m0", some "t0", some "c0"⟩ "C1" (some "T1")
        (some "m0") ⟨500, false, none⟩ =
      (Except.error SlackSendErr.messageSendError,
       ⟨"h", "b", some "m0", some "t0", some "c0"⟩) ∧
    send_message ⟨"h", "b", some "m0", some "t0", some "c0"⟩ "C1" (some "T1")
        (some "m0") ⟨200, true, some TsVal.nonStr⟩ =
      (Except.error SlackSendErr.apiError,
       ⟨"h", "b", some "m0", some "t0", some "c0"⟩) ∧
    send_message ⟨"h", "b", some "m0", some "t0", some "c0"⟩ "C1" (some "T1")
        (some "m0") ⟨200, true, some (TsVal.str "168.2")⟩ =
      (Except.ok "168.2", ⟨"h", "b", some "168.2", some "T1", some "C1"⟩) :=
  ⟨(send_message_atomic ⟨"h", "b", some "m0", some "t0", some "c0"⟩ "C1" (some "T1")
      (some "m0") ⟨500, false, none⟩ "").1 (by decide),
   (send_message_atomic ⟨"h", "b", some "m0", some "t0", some "c0"⟩ "C1" (some "T1")
      (some "m0") ⟨200, true, some TsVal.nonStr⟩ "").2.1 (by decide) (Or.inr rfl),
   ((send_message_atomic ⟨"h", "b", some "m0", some "t0", some "c0"⟩ "C1" (some "T1")
      (some "m0") ⟨200, true, some (TsVal.str "168.2")⟩ "168.2").2.2
      (by decide) rfl).1⟩

/-! ## Trace lemmas for the coordinator -/

/-- Every completed polling loop emits a single observation of completion,
as its last event. -/
theorem pollLoop_shape (ptext botMsgId : String) (polls : Nat → Bool) :
    ∀ fuel i n evs i2 n2,
      pollLoop ptext botMsgId polls i n fuel = some (evs, i2, n2) →
      ∃ front, evs = front ++ [Ev.check true] ∧ Ev.check true ∉ front := by
  intro fuel
  induction fuel with
  | zero =>
    intro i n evs i2 n2 h
    exact absurd h (by simp [pollLoop])
  | succ fuel ih =>
    intro i n evs i2 n2 h
    rw [pollLoop] at h
    cases hp0 : polls i with
    | true =>
      rw [hp0] at h
      simp only [if_true, Option.some.injEq, Prod.mk.injEq] at h
      exact ⟨[], h.1.symm, by simp⟩
    | false =>
      rw [hp0] at h
      simp only [Bool.false_eq_true, if_false] at h
      cases hp1 : polls (i + 1) with
      | true =>
        rw [hp1] at h
        simp only [if_true, Option.some.injEq, Prod.mk.injEq] at h
        refine ⟨[Ev.check false, Ev.send (headerAtD ptext n) (some botMsgId),
          Ev.sleepEv], h.1.symm, by simp⟩
      | false =>
        rw [hp1] at h
        simp only [Bool.false_eq_true, if_false] at h
        cases hrec : pollLoop ptext botMsgId polls (i + 2) (n + 1) fuel with
        | none => rw [hrec] at h; exact absurd h (by simp)
        | some trip =>
          obtain ⟨rest, ri, rn⟩ := trip
          rw [hrec] at h
          simp only [Option.some.injEq, Prod.mk.injEq] at h
          obtain ⟨front, hf, hnot⟩ := ih (i + 2) (n + 1) rest ri rn hrec
          refine ⟨[Ev.check false, Ev.send (headerAtD ptext n) (some botMsgId),
            Ev.sleepEv] ++ Ev.check false :: front, ?_, ?_⟩
          · rw [← h.1, hf]
            simp
          · simp [hnot]

/-- `afterFirstTrueCheck` skips over a prefix containing no completed
check. -/
theorem afterFirstTrueCheck_append (l m : List Ev) (h : Ev.check true ∉ l) :
    afterFirstTrueCheck (l ++ m) = afterFirstTrueCheck m := by
  induction l with
  | nil => rfl
  | cons e l ih =>
    simp only [List.mem_cons, not_or] at h
    simp only [List.cons_append, afterFirstTrueCheck]
    rw [if_neg fun he => h.1 he.symm]
    exact ih h.2

/-- `afterFirstTrueCheck` drops a leading completed check. -/
theorem afterFirstTrueCheck_cons_true (m : List Ev) :
    afterFirstTrueCheck (Ev.check true :: m) = m := by
  simp [afterFirstTrueCheck]

/-- Characterization of a completed coordinator run: the trace is the
start/flush/initial-send prelude, the loop events, then the terminal edit;
the processing time is the entry value plus the loop's elapsed time; and
the call's result is the unit of work's outcome. -/
theorem execute_with_progress_eq (p0 : ℚ) (mid0 : Option String)
    (ptext botMsgId : String) (polls : Nat → Bool) (elapsed : ℚ)
    (outcome : Except String Unit) (fuel : Nat) (out : RunOutput)
    (h : execute_with_progress p0 mid0 ptext botMsgId polls elapsed outcome fuel
      = some out) :
    ∃ loopEvs i2 n2,
      pollLoop ptext botMsgId polls 0 1 fuel = some (loopEvs, i2, n2) ∧
      out.events = [Ev.startWork, Ev.flushEv, Ev.send (headerAtD ptext 0) mid0] ++
        loopEvs ++ [Ev.send (get_header_done (p0 + elapsed)) (some botMsgId)] ∧
      out.processing_time = p0 + elapsed ∧
      out.result = outcome := by
  simp only [execute_with_progress] at h
  cases hpl : pollLoop ptext botMsgId polls 0 1 fuel with
  | none => rw [hpl] at h; exact absurd h (by simp)
  | some trip =>
    obtain ⟨loopEvs, i2, n2⟩ := trip
    rw [hpl] at h
    simp only [Option.some.injEq] at h
    subst h
    exact ⟨loopEvs, i2, n2, rfl, rfl, rfl, rfl⟩

/-- Claim C1: in every completed run of the coordinator, the trace of
transport calls is a single linear sequence in program order whose first
event is the start of the unit of work (so the work starts before the
first completion check), the terminal done edit is the last event issued,
and after the poll that observes completion — whether it is the loop-head
check or the post-sleep check — the only send issued is the terminal done
edit (no further intermediate header edit). -/
theorem execute_with_progress_ordering (p0 : ℚ) (mid0 : Option String)
    (ptext botMsgId : String) (polls : Nat → Bool) (elapsed : ℚ)
    (outcome : Except String Unit) (fuel : Nat) (out : RunOutput)
    (h : execute_with_progress p0 mid0 ptext botMsgId polls elapsed outcome fuel
      = some out) :
    out.events.head? = some Ev.startWork ∧
    out.events.getLast? =
      some (Ev.send (get_header_done out.processing_time) (some botMsgId)) ∧
    sendEvents (afterFirstTrueCheck out.events) =
      [Ev.send (get_header_done out.processing_time) (some botMsgId)] := by
  obtain ⟨loopEvs, i2, n2, hpl, hev, hpt, -⟩ :=
    execute_with_progress_eq p0 mid0 ptext botMsgId polls elapsed outcome fuel out h
  obtain ⟨front, hf, hnot⟩ :=
    pollLoop_shape ptext botMsgId polls fuel 0 1 loopEvs i2 n2 hpl
  subst hf
  have hpre : Ev.check true ∉
      [Ev.startWork, Ev.flushEv, Ev.send (headerAtD ptext 0) mid0] := by simp
  rw [hev, hpt]
  refine ⟨rfl, List.getLast?_concat _, ?_⟩
  rw [List.append_assoc, afterFirstTrueCheck_append _ _ hpre, List.append_assoc,
    afterFirstTrueCheck_append _ _ hnot, List.singleton_append,
    afterFirstTrueCheck_cons_true]
  rfl

/-- Claim C1 witness: a run whose loop performs one iteration before the
post-sleep poll observes completion. -/
theorem execute_with_progress_ordering_witness :
    (RunOutput.mk
      [Ev.startWork, Ev.flushEv, Ev.send (headerAtD "T" 0) none,
       Ev.check false, Ev.send (headerAtD "T" 1) (some "100.5"), Ev.sleepEv,
       Ev.check true, Ev.send (get_header_done ((0 : ℚ) + 2)) (some "100.5")]
      ((0 : ℚ) + 2) (Except.ok ())).events.head? = some Ev.startWork ∧
    (RunOutput.mk
      [Ev.startWork, Ev.flushEv, Ev.send (headerAtD "T" 0) none,
       Ev.check false, Ev.send (headerAtD "T" 1) (some "100.5"), Ev.sleepEv,
       Ev.check true, Ev.send (get_header_done ((0 : ℚ) + 2)) (some "100.5")]
      ((0 : ℚ) + 2) (Except.ok ())).events.getLast? =
      some (Ev.send (get_header_done (RunOutput.mk
        [Ev.startWork, Ev.flushEv, Ev.send (headerAtD "T" 0) none,
         Ev.check false, Ev.send (headerAtD "T" 1) (some "100.5"), Ev.sleepEv,
         Ev.check true, Ev.send (get_header_done ((0 : ℚ) + 2)) (some "100.5")]
        ((0 : ℚ) + 2) (Except.ok ())).processing_time) (some "100.5")) ∧
    sendEvents (afterFirstTrueCheck (RunOutput.mk
      [Ev.startWork, Ev.flushEv, Ev.send (headerAtD "T" 0) none,
       Ev.check false, Ev.send (headerAtD "T" 1) (some "100.5"), Ev.sleepEv,
       Ev.check true, Ev.send (get_header_done ((0 : ℚ) + 2)) (some "100.5")]
      ((0 : ℚ) + 2) (Except.ok ())).events) =
      [Ev.send (get_header_done (RunOutput.mk
        [Ev.startWork, Ev.flushEv, Ev.send (headerAtD "T" 0) none,
         Ev.check false, Ev.send (headerAtD "T" 1) (some "100.5"), Ev.sleepEv,
         Ev.check true, Ev.send (get_header_done ((0 : ℚ) + 2)) (some "100.5")]
        ((0 : ℚ) + 2) (Except.ok ())).processing_time) (some "100.5")] :=
  execute_with_progress_ordering 0 none "T" "100.5" (fun i => decide (1 ≤ i)) 2
    (Except.ok ()) 1
    (RunOutput.mk
      [Ev.startWork, Ev.flushEv, Ev.send (headerAtD "T" 0) none,
       Ev.check false, Ev.send (headerAtD "T" 1) (some "100.5"), Ev.sleepEv,
       Ev.check true, Ev.send (get_header_done ((0 : ℚ) + 2)) (some "100.5")]
      ((0 : ℚ) + 2) (Except.ok ())) rfl

/-- Claim C2: when the unit of work fails, a completed run returns the
work's exception to the caller (the call does not return normally and does
not swallow the error); the error surfaces only after a poll has observed
completion (completion includes failure), and it is not masked by the
terminal done edit, which is still the last event of the trace. -/
theorem execute_with_progress_propagates_failure (p0 : ℚ) (mid0 : Option String)
    (ptext botMsgId : String) (polls : Nat → Bool) (elapsed : ℚ) (e : String)
    (fuel : Nat) (out : RunOutput)
    (h : execute_with_progress p0 mid0 ptext botMsgId polls elapsed
      (Except.error e) fuel = some out) :
    out.result = Except.error e ∧
    Ev.check true ∈ out.events ∧
    out.events.getLast? =
      some (Ev.send (get_header_done out.processing_time) (some botMsgId)) := by
  obtain ⟨loopEvs, i2, n2, hpl, hev, hpt, hres⟩ :=
    execute_with_progress_eq p0 mid0 ptext botMsgId polls elapsed
      (Except.error e) fuel out h
  obtain ⟨front, hf, hnot⟩ :=
    pollLoop_shape ptext botMsgId polls fuel 0 1 loopEvs i2 n2 hpl
  subst hf
  rw [hev, hpt]
  exact ⟨hres, by simp, List.getLast?_concat _⟩

/-- The trace of a run whose very first poll observes completion. -/
def runEventsInstant (ptext : String) (bid : String) (pt : ℚ) : List Ev :=
  [Ev.startWork, Ev.flushEv, Ev.send (headerAtD ptext 0) none,
   Ev.check true, Ev.send (get_header_done pt) (some bid)]

/-- Claim C2 witness: a run whose unit of work fails with `"boom"`. -/
theorem execute_with_progress_propagates_failure_witness :
    (RunOutput.mk (runEventsInstant "T" "9" ((0 : ℚ) + 3)) ((0 : ℚ) + 3)
      (Except.error "boom")).result = Except.error "boom" ∧
    Ev.check true ∈ (RunOutput.mk (runEventsInstant "T" "9" ((0 : ℚ) + 3))
      ((0 : ℚ) + 3) (Except.error "boom")).events ∧
    (RunOutput.mk (runEventsInstant "T" "9" ((0 : ℚ) + 3)) ((0 : ℚ) + 3)
      (Except.error "boom")).events.getLast? =
      some (Ev.send (get_header_done
        (RunOutput.mk (runEventsInstant "T" "9" ((0 : ℚ) + 3)) ((0 : ℚ) + 3)
          (Except.error "boom")).processing_time) (some "9")) :=
  execute_with_progress_propagates_failure 0 none "T" "9" (fun _ => true) 3
    "boom" 1
    (RunOutput.mk (runEventsInstant "T" "9" ((0 : ℚ) + 3)) ((0 : ℚ) + 3)
      (Except.error "boom")) rfl

/-- Claim C3: every completed run adds the loop's elapsed time to the task
context's accumulated processing time — so with a monotonic clock
(non-negative elapsed readings) the accumulated value never decreases —
and the terminal header is rendered from the accumulated total; two
sequential runs sharing the task context render the second terminal header
from the sum of both runs' durations, not just the second one. -/
theorem execute_with_progress_accumulates_time (p0 e1 e2 : ℚ)
    (mid1 mid2 : Option String) (pt1 pt2 bid1 bid2 : String)
    (polls1 polls2 : Nat → Bool) (o1 o2 : Except String Unit) (f1 f2 : Nat)
    (out1 out2 : RunOutput)
    (h1 : execute_with_progress p0 mid1 pt1 bid1 polls1 e1 o1 f1 = some out1)
    (h2 : execute_with_progress out1.processing_time mid2 pt2 bid2 polls2 e2 o2 f2
      = some out2)
    (he1 : 0 ≤ e1) (he2 : 0 ≤ e2) :
    out1.processing_time = p0 + e1 ∧
    out2.processing_time = p0 + e1 + e2 ∧
    p0 ≤ out1.processing_time ∧
    out1.processing_time ≤ out2.processing_time ∧
    out1.events.getLast? = some (Ev.send (get_header_done (p0 + e1)) (some bid1)) ∧
    out2.events.getLast? =
      some (Ev.send (get_header_done (p0 + e1 + e2)) (some bid2)) := by
  obtain ⟨l1, i1, n1, hpl1, hev1, hpt1, -⟩ :=
    execute_with_progress_eq p0 mid1 pt1 bid1 polls1 e1 o1 f1 out1 h1
  obtain ⟨l2, i2, n2, hpl2, hev2, hpt2, -⟩ :=
    execute_with_progress_eq out1.processing_time mid2 pt2 bid2 polls2 e2 o2 f2
      out2 h2
  have hb : out2.processing_time = p0 + e1 + e2 := by rw [hpt2, hpt1]
  refine ⟨hpt1, hb, by rw [hpt1]; linarith, by rw [hb, hpt1]; linarith, ?_, ?_⟩
  · rw [hev1]
    exact List.getLast?_concat _
  · rw [hev2, hpt1]
    exact List.getLast?_concat _

/-- Claim C3 witness: two sequential instantly-completing runs with
elapsed times 2 and 3; the second terminal header reflects `0 + 2 + 3`. -/
theorem execute_with_progress_accumulates_time_witness :
    (RunOutput.mk (runEventsInstant "T" "1" ((0 : ℚ) + 2)) ((0 : ℚ) + 2)
      (Except.ok ())).processing_time = 0 + 2 ∧
    (RunOutput.mk (runEventsInstant "U" "8" ((0 : ℚ) + 2 + 3)) ((0 : ℚ) + 2 + 3)
      (Except.ok ())).processing_time = 0 + 2 + 3 ∧
    (0 : ℚ) ≤ (RunOutput.mk (runEventsInstant "T" "1" ((0 : ℚ) + 2)) ((0 : ℚ) + 2)
      (Except.ok ())).processing_time ∧
    (RunOutput.mk (runEventsInstant "T" "1" ((0 : ℚ) + 2)) ((0 : ℚ) + 2)
      (Except.ok ())).processing_time ≤
      (RunOutput.mk (runEventsInstant "U" "8" ((0 : ℚ) + 2 + 3)) ((0 : ℚ) + 2 + 3)
        (Except.ok ())).processing_time ∧
    (RunOutput.mk (runEventsInstant "T" "1" ((0 : ℚ) + 2)) ((0 : ℚ) + 2)
      (Except.ok ())).events.getLast? =
      some (Ev.send (get_header_done ((0 : ℚ) + 2)) (some "1")) ∧
    (RunOutput.mk (runEventsInstant "U" "8" ((0 : ℚ) + 2 + 3)) ((0 : ℚ) + 2 + 3)
      (Except.ok ())).events.getLast? =
      some (Ev.send (get_header_done ((0 : ℚ) + 2 + 3)) (some "8")) :=
  execute_with_progress_accumulates_time 0 2 3 none none "T" "U" "1" "8"
    (fun _ => true) (fun _ => true) (Except.ok ()) (Except.ok ()) 1 1
    (RunOutput.mk (runEventsInstant "T" "1" ((0 : ℚ) + 2)) ((0 : ℚ) + 2)
      (Except.ok ()))
    (RunOutput.mk (runEventsInstant "U" "8" ((0 : ℚ) + 2 + 3)) ((0 : ℚ) + 2 + 3)
      (Except.ok ()))
    rfl rfl (by norm_num) (by norm_num)

/-- Claim C4: a run whose unit of work completes instantly — the very
first poll observes completion, so the loop body executes zero times —
still issues exactly one initial create send (no message id at entry) and
exactly one terminal edit, so exactly two transport sends in total. -/
theorem execute_with_progress_instant_completion (p0 : ℚ)
    (ptext botMsgId : String) (polls : Nat → Bool) (elapsed : ℚ)
    (outcome : Except String Unit) (fuel : Nat) (out : RunOutput)
    (hpoll : polls 0 = true)
    (h : execute_with_progress p0 none ptext botMsgId polls elapsed outcome fuel
      = some out) :
    sendEvents out.events =
      [Ev.send (headerAtD ptext 0) none,
       Ev.send (get_header_done out.processing_time) (some botMsgId)] ∧
    (sendEvents out.events).length = 2 := by
  obtain ⟨loopEvs, i2, n2, hpl, hev, hpt, -⟩ :=
    execute_with_progress_eq p0 none ptext botMsgId polls elapsed outcome fuel
      out h
  have hse : sendEvents out.events =
      [Ev.send (headerAtD ptext 0) none,
       Ev.send (get_header_done out.processing_time) (some botMsgId)] := by
    cases fuel with
    | zero => exact absurd hpl (by simp [pollLoop])
    | succ fuel =>
      rw [pollLoop, hpoll] at hpl
      simp only [if_true, eq_self_iff_true, Option.some.injEq, Prod.mk.injEq] at hpl
      obtain ⟨hl, -, -⟩ := hpl
      rw [hev, hpt, ← hl]
      simp [sendEvents]
  exact ⟨hse, by rw [hse]; rfl⟩

/-- Claim C4 witness: an instantly-completing run issues the create send
and the terminal edit only. -/
theorem execute_with_progress_instant_completion_witness :
    sendEvents (RunOutput.mk (runEventsInstant "T" "7" ((0 : ℚ) + 5))
      ((0 : ℚ) + 5) (Except.ok ())).events =
      [Ev.send (headerAtD "T" 0) none,
       Ev.send (get_header_done (RunOutput.mk (runEventsInstant "T" "7"
         ((0 : ℚ) + 5)) ((0 : ℚ) + 5) (Except.ok ())).processing_time)
         (some "7")] ∧
    (sendEvents (RunOutput.mk (runEventsInstant "T" "7" ((0 : ℚ) + 5))
      ((0 : ℚ) + 5) (Except.ok ())).events).length = 2 :=
  execute_with_progress_instant_completion 0 "T" "7" (fun _ => true) 5
    (Except.ok ()) 1
    (RunOutput.mk (runEventsInstant "T" "7" ((0 : ℚ) + 5)) ((0 : ℚ) + 5)
      (Except.ok ())) rfl rfl
